import Mathlib

/-!
Verification of the web-search MCP server (`src/server.py`) against its
specification.  Python strings are embedded as lists of Unicode code points
(`List Char`), the network is an oracle mapping a URL and request headers to
an HTTP outcome, and Python exceptions are embedded as `Except PyError`.
-/

namespace WebSearchMCP

/-- Python strings are modelled as lists of Unicode code points. -/
abbrev PyStr := List Char

/-- Lift a Lean string literal to the `PyStr` embedding. -/
def str (s : String) : PyStr := s.data

/-- Decimal rendering of a natural number, as Python `str(n)` / f-string
interpolation of a nonnegative `int`. -/
def natToStr (n : Nat) : PyStr := (toString n).data

/-- Decimal rendering of an integer, as Python `str(n)` for an `int`. -/
def intToStr (n : Int) : PyStr := (toString n).data

/-- `server.py` line 16: the fixed `USER_AGENT` string. -/
def USER_AGENT : PyStr :=
  str "MCPWebUtilServer/1.0 (LanguageModelIntegration; +https://modelcontextprotocol.io)"

/-- `server.py` line 17: `MAX_SEARCH_RESULTS = 5`. -/
def MAX_SEARCH_RESULTS : Nat := 5

/-- `server.py` line 18: `MAX_FETCH_CHARS = 500000`. -/
def MAX_FETCH_CHARS : Nat := 500000

/-- Process configuration: `BRAVE_API_KEY = os.getenv("BRAVE_API_KEY")`
(`none` when the environment variable is absent). -/
structure Config where
  braveApiKey : Option PyStr

/-- Python truthiness of `BRAVE_API_KEY` as used by `if not BRAVE_API_KEY:`
(true when the variable is absent or the empty string). -/
def strFalsy : Option PyStr → Bool
  | none => true
  | some s => s.isEmpty

/-- JSON values, the result of `response.json()`.  JSON numbers are modelled
as integers (no claim involves fractional numbers). -/
inductive Json where
  | null
  | bool (b : Bool)
  | num (n : Int)
  | str (s : PyStr)
  | arr (items : List Json)
  | obj (fields : List (PyStr × Json))

/-- Python exceptions relevant to `server.py`: `ConnectionError` and
`ValueError` are raised by `make_request` (and `response.json()` raises a
`ValueError` subclass); every other exception is `otherError`. -/
inductive PyError where
  | connectionError (msg : PyStr)
  | valueError (msg : PyStr)
  | otherError (msg : PyStr)

/-- A successful (2xx, post-redirect) HTTP response as the tools consume it:
the `content-type` header, the decoded body text, and the result of
`response.json()` (an error message when the body is not valid JSON). -/
structure Response where
  contentType : Option PyStr
  body : PyStr
  json : Except PyStr Json

/-- Outcome of one outbound GET: success, a transport-level failure
(`httpx.RequestError`), or a non-2xx status (`httpx.HTTPStatusError`
raised by `response.raise_for_status()`). -/
inductive HttpOutcome where
  | success (resp : Response)
  | requestError (msg : PyStr)
  | statusError (code : Nat)

/-- Request headers: a Python dict from header name to value, in insertion
order. -/
abbrev Headers := List (PyStr × PyStr)

/-- Python `d.get(k, default)` on a header dict. -/
def headersGet (h : Headers) (k d : PyStr) : PyStr := (h.lookup k).getD d

/-- Python `d[k] = v` on a header dict: replace in place, else append. -/
def headersSet (h : Headers) (k v : PyStr) : Headers :=
  match h with
  | [] => [(k, v)]
  | (k', v') :: t => if k' == k then (k', v) :: t else (k', v') :: headersSet t k v

/-- The network oracle: what one `client.get(url, headers=...)` round trip
(with the fixed timeout and redirect policy) yields. -/
abbrev Net := PyStr → Headers → HttpOutcome

/-- `make_request` (`server.py` lines 25-41): merges the default user agent
into the headers, issues the GET, and converts transport failures to
`ConnectionError` and non-2xx statuses to `ValueError`, each carrying the
message the source builds. -/
def make_request (net : Net) (url : PyStr) (headers : Option Headers) :
    Except PyError Response :=
  let hdrs : Headers :=
    match headers with
    | none => [(str "User-Agent", USER_AGENT)]
    | some h => headersSet h (str "User-Agent") (headersGet h (str "User-Agent") USER_AGENT)
  match net url hdrs with
  | .success resp => .ok resp
  | .requestError msg =>
      .error (.connectionError (str "Network error accessing " ++ url ++ str ": " ++ msg))
  | .statusError code =>
      .error (.valueError (str "HTTP error " ++ natToStr code ++ str " accessing " ++ url))

/-- Python `==` between a string and an arbitrary JSON value (`str.__eq__`
is `False` on non-strings), used by membership tests on lists. -/
def jsonEqStr (j : Json) (key : PyStr) : Bool :=
  match j with
  | .str s => s == key
  | _ => false

/-- Whether `needle` occurs at the start of `hay`. -/
def startsWith : PyStr → PyStr → Bool
  | [], _ => true
  | _ :: _, [] => false
  | a :: as, b :: bs => a == b && startsWith as bs

/-- Python `needle in hay` for strings: substring containment. -/
def containsSub : PyStr → PyStr → Bool
  | needle, [] => needle.isEmpty
  | needle, c :: t => startsWith needle (c :: t) || containsSub needle t

/-- Python `key in value` for a string key and a JSON value: key membership
for dicts, elementwise `==` for lists, substring test for strings, and a
`TypeError` for non-iterable values. -/
def pyContains (value : Json) (key : PyStr) : Except PyError Bool :=
  match value with
  | .obj fields => .ok (fields.lookup key).isSome
  | .arr items => .ok (items.any (fun j => jsonEqStr j key))
  | .str s => .ok (containsSub key s)
  | _ => .error (.otherError (str "TypeError: argument is not iterable"))

/-- Python `value[key]` for a string key: dict lookup (a `KeyError` when the
key is absent), and a `TypeError` on anything that is not a dict. -/
def pyGetItem (value : Json) (key : PyStr) : Except PyError Json :=
  match value with
  | .obj fields =>
      match fields.lookup key with
      | some v => .ok v
      | none => .error (.otherError (str "KeyError"))
  | _ => .error (.otherError (str "TypeError: value is not subscriptable by a string"))

/-- Python `value.get(key, default)`: dict lookup with a default, and an
`AttributeError` on anything that is not a dict. -/
def pyGet (value : Json) (key : PyStr) (dflt : Json) : Except PyError Json :=
  match value with
  | .obj fields => .ok ((fields.lookup key).getD dflt)
  | _ => .error (.otherError (str "AttributeError: object has no attribute get"))

/-- Python truthiness of a JSON value, as used by `if not results:`. -/
def pyTruthy : Json → Bool
  | .null => false
  | .bool b => b
  | .num n => n != 0
  | .str s => !s.isEmpty
  | .arr items => !items.isEmpty
  | .obj fields => !fields.isEmpty

/-- Python `value[:n]` followed by iteration, as in
`for i, result in enumerate(results[:MAX_SEARCH_RESULTS])`: slicing a list
takes the first `n` items, slicing a string yields its first `n` characters
(each a one-character string); any other value raises a `TypeError`. -/
def sliceEnum (value : Json) (n : Nat) : Except PyError (List Json) :=
  match value with
  | .arr items => .ok (items.take n)
  | .str s => .ok ((s.take n).map (fun c => Json.str [c]))
  | _ => .error (.otherError (str "TypeError: value is not sliceable"))

/-- Python `repr` of a string, as used inside the rendering of containers:
quote choice between single and double quotes, escaping backslashes and the
chosen quote (control-character escapes are not modelled; no claim
evaluates them). -/
def pyReprOfStr (s : PyStr) : PyStr :=
  let q : Char := if s.contains '\'' && !s.contains '"' then '"' else '\''
  let esc : PyStr := s.flatMap (fun c => if c = '\\' || c = q then ['\\', c] else [c])
  q :: esc ++ [q]

mutual

/-- Python `repr` of a JSON value (used for elements of containers). -/
def pyReprJson : Json → PyStr
  | .null => str "None"
  | .bool true => str "True"
  | .bool false => str "False"
  | .num n => intToStr n
  | .str s => pyReprOfStr s
  | .arr items => str "[" ++ pyReprItems items ++ str "]"
  | .obj fields => str "\x7b" ++ pyReprFields fields ++ str "\x7d"

/-- Comma-separated `repr`s of list elements. -/
def pyReprItems : List Json → PyStr
  | [] => []
  | [j] => pyReprJson j
  | j :: j' :: rest => pyReprJson j ++ str ", " ++ pyReprItems (j' :: rest)

/-- Comma-separated `'key': value` renderings of dict entries. -/
def pyReprFields : List (PyStr × Json) → PyStr
  | [] => []
  | [(k, v)] => pyReprOfStr k ++ str ": " ++ pyReprJson v
  | (k, v) :: kv :: rest =>
      pyReprOfStr k ++ str ": " ++ pyReprJson v ++ str ", " ++ pyReprFields (kv :: rest)

end

/-- Python `str(value)` as applied by f-string interpolation to a JSON
value: strings pass through unquoted, scalars print their Python form, and
containers print their `repr`. -/
def pyStrOf : Json → PyStr
  | .null => str "None"
  | .bool true => str "True"
  | .bool false => str "False"
  | .num n => intToStr n
  | .str s => s
  | .arr items => str "[" ++ pyReprItems items ++ str "]"
  | .obj fields => str "\x7b" ++ pyReprFields fields ++ str "\x7d"

/-- Python `sep.join(parts)`. -/
def pyJoin (sep : PyStr) : List PyStr → PyStr
  | [] => []
  | [w] => w
  | w :: w' :: ws => w ++ sep ++ pyJoin sep (w' :: ws)

/-- `server.py` line 59: the search URL built by f-string interpolation of
the raw query (no percent-encoding). -/
def searchUrl (query : PyStr) : PyStr :=
  str "https://api.search.brave.com/res/v1/web/search?q=" ++ query ++
    str "&count=" ++ natToStr MAX_SEARCH_RESULTS

/-- `server.py` lines 60-64: the headers sent with a search request. -/
def braveHeaders (cfg : Config) : Headers :=
  [(str "Accept", str "application/json"),
   (str "Accept-Encoding", str "gzip"),
   (str "X-Subscription-Token", cfg.braveApiKey.getD [])]

/-- One iteration of the result-formatting loop (`server.py` lines 79-83):
`result.get` falls back to the placeholders, and the entry is the f-string
`f"{i+1}. {title}\n   URL: {url}\n   Snippet: {snippet}\n"` (`i` is the
0-based `enumerate` index). -/
def formatResult (i : Nat) (result : Json) : Except PyError PyStr :=
  match pyGet result (str "title") (Json.str (str "No Title")) with
  | .error e => .error e
  | .ok title =>
    match pyGet result (str "url") (Json.str (str "#")) with
    | .error e => .error e
    | .ok url =>
      match pyGet result (str "description") (Json.str (str "No Snippet")) with
      | .error e => .error e
      | .ok snippet =>
        .ok (natToStr (i + 1) ++ str ". " ++ pyStrOf title ++ str "\n   URL: " ++
          pyStrOf url ++ str "\n   Snippet: " ++ pyStrOf snippet ++ str "\n")

/-- The whole formatting loop over the sliced results, accumulating the
entries appended to `formatted_results`. -/
def formatResultsAux : Nat → List Json → Except PyError (List PyStr)
  | _, [] => .ok []
  | i, r :: rs =>
    match formatResult i r with
    | .error e => .error e
    | .ok entry =>
      match formatResultsAux (i + 1) rs with
      | .error e => .error e
      | .ok entries => .ok (entry :: entries)

/-- Body of the `try:` block of `brave_search` (`server.py` lines 67-85):
request, JSON-parse, the short-circuiting
`"web" not in data or "results" not in data["web"]` check, the
`if not results:` check, and the formatting loop; any raised exception is
the `Except` error. -/
def braveBody (cfg : Config) (net : Net) (query : PyStr) : Except PyError PyStr :=
  match make_request net (searchUrl query) (some (braveHeaders cfg)) with
  | .error e => .error e
  | .ok response =>
    match response.json with
    | .error m => .error (.valueError m)
    | .ok data =>
      match pyContains data (str "web") with
      | .error e => .error e
      | .ok hasWeb =>
        let noResultsCheck : Except PyError Bool :=
          if hasWeb then
            match pyGetItem data (str "web") with
            | .error e => .error e
            | .ok w =>
              match pyContains w (str "results") with
              | .error e => .error e
              | .ok hasRes => .ok (!hasRes)
          else .ok true
        match noResultsCheck with
        | .error e => .error e
        | .ok true => .ok (str "No web search results found.")
        | .ok false =>
          match pyGetItem data (str "web") with
          | .error e => .error e
          | .ok w =>
            match pyGetItem w (str "results") with
            | .error e => .error e
            | .ok results =>
              if !pyTruthy results then .ok (str "No web search results found.")
              else
                match sliceEnum results MAX_SEARCH_RESULTS with
                | .error e => .error e
                | .ok items =>
                  match formatResultsAux 0 items with
                  | .error e => .error e
                  | .ok entries =>
                    .ok (pyJoin (str "\n") (str "Search Results:" :: entries))

/-- The `brave_search` tool (`server.py` lines 46-91): the credential check,
then the `try:` body with its two `except` clauses rendering every raised
exception as a string.  The function is total: no exception escapes. -/
def brave_search (cfg : Config) (net : Net) (query : PyStr) : PyStr :=
  if strFalsy cfg.braveApiKey then
    str "Error: Brave Search API key (BRAVE_API_KEY) is not configured."
  else
    match braveBody cfg net query with
    | .ok s => s
    | .error (.connectionError m) => str "Error performing search: " ++ m
    | .error (.valueError m) => str "Error performing search: " ++ m
    | .error (.otherError m) => str "An unexpected error occurred: " ++ m

/-- Python whitespace, as recognised by `str.split()` / `str.strip()`
(the ASCII whitespace characters; no claim involves the additional Unicode
space characters). -/
def isPySpace (c : Char) : Bool :=
  c == ' ' || c == '\t' || c == '\n' || c == '\x0d' || c == '\x0b' || c == '\x0c'

/-- Python `s.strip()`. -/
def pyStrip (s : PyStr) : PyStr :=
  ((s.dropWhile isPySpace).reverse.dropWhile isPySpace).reverse

/-- Worker for Python `s.split()` (split on whitespace runs, no empty
words); `acc` holds the reversed current word. -/
def splitAux : List Char → List Char → List PyStr
  | [], acc => if acc.isEmpty then [] else [acc.reverse]
  | c :: cs, acc =>
    if isPySpace c then
      if acc.isEmpty then splitAux cs []
      else acc.reverse :: splitAux cs []
    else splitAux cs (c :: acc)

/-- Python `s.split()`. -/
def pySplit (s : PyStr) : List PyStr := splitAux s []

/-- `server.py` line 123: `' '.join(text.split())` — collapse every run of
whitespace to a single space and trim the ends. -/
def normWs (s : PyStr) : PyStr := pyJoin (str " ") (pySplit s)

/-- Python `s.lower()` (ASCII case folding). -/
def pyLower (s : PyStr) : PyStr := s.map Char.toLower

/-- Tokens of the HTML document: a text run, an opening tag, or a closing
tag (tag names lowercased, attributes dropped). -/
inductive HtmlToken where
  | txt (s : PyStr)
  | tagOpen (name : PyStr)
  | tagClose (name : PyStr)

/-- Scanner mode: inside a text run or inside a `<...>` tag. -/
inductive TokMode where
  | text
  | tag

/-- A character that may be part of a tag name. -/
def isNameChar (c : Char) : Bool := c.isAlpha || c.isDigit

/-- Turn the raw contents of a `<...>` pair into a tag token. -/
def mkTag (body : PyStr) : HtmlToken :=
  match body with
  | '/' :: rest => .tagClose (pyLower (rest.takeWhile isNameChar))
  | _ => .tagOpen (pyLower (body.takeWhile isNameChar))

/-- Modelled from the spec: the HTML tokenizer underlying the external
`BeautifulSoup(html_content, 'html.parser')` collaborator (`server.py`
line 114), which is not part of this repository.  A single left-to-right
scan that alternates between text runs and `<...>` tags (an unterminated
tag at end of input is dropped, as `html.parser` drops it); `acc` holds
the reversed characters of the current run. -/
def tokAux : List Char → TokMode → List Char → List HtmlToken
  | [], .text, acc => if acc.isEmpty then [] else [.txt acc.reverse]
  | [], .tag, _ => []
  | c :: cs, .text, acc =>
    if c == '<' then
      (if acc.isEmpty then [] else [.txt acc.reverse]) ++ tokAux cs .tag []
    else tokAux cs .text (c :: acc)
  | c :: cs, .tag, acc =>
    if c == '>' then mkTag acc.reverse :: tokAux cs .text []
    else tokAux cs .tag (c :: acc)

/-- Tokenize an HTML document. -/
def tokenize (s : PyStr) : List HtmlToken := tokAux s .text []

/-- `server.py` line 117: the element names removed from the soup before
text extraction. -/
def EXCLUDED : List PyStr :=
  [str "script", str "style", str "nav", str "footer", str "header", str "aside"]

/-- Modelled from the spec: the text nodes that survive the removal of the
excluded elements (`soup([...]).extract()`, `server.py` lines 117-118) —
a linear pass that skips every token while the nesting depth of excluded
elements is positive. -/
def collectTexts : List HtmlToken → Nat → List PyStr
  | [], _ => []
  | .txt s :: ts, 0 => s :: collectTexts ts 0
  | .txt _ :: ts, d + 1 => collectTexts ts (d + 1)
  | .tagOpen n :: ts, d =>
      collectTexts ts (if EXCLUDED.contains n then d + 1 else d)
  | .tagClose n :: ts, d =>
      collectTexts ts (if EXCLUDED.contains n then d - 1 else d)

/-- Modelled from the spec: `soup.get_text(separator=' ', strip=True)`
(`server.py` line 121) — each surviving text node is stripped, empty nodes
are dropped, and the rest are joined with a single space. -/
def get_text (body : PyStr) : PyStr :=
  pyJoin (str " ")
    (((collectTexts (tokenize body) 0).map pyStrip).filter (fun w => !w.isEmpty))

/-- Body of the `try:` block of `fetch_webpage_text` (`server.py`
lines 104-129): request, content-type check, extraction, whitespace
normalization, the emptiness check, and the truncation. -/
def fetchBody (net : Net) (url : PyStr) : Except PyError PyStr :=
  match make_request net url none with
  | .error e => .error e
  | .ok response =>
    let content_type := pyLower (response.contentType.getD [])
    if !containsSub (str "text/html") content_type then
      .ok (str "Error: Content type is not HTML (" ++ content_type ++
        str "). Cannot extract text.")
    else
      let text := normWs (get_text response.body)
      if text.isEmpty then
        .ok (str "Could not extract any text content from the page.")
      else
        .ok (text.take MAX_FETCH_CHARS ++
          (if MAX_FETCH_CHARS < text.length then str "..." else []))

/-- The `fetch_webpage_text` tool (`server.py` lines 94-135): the `try:`
body with its two `except` clauses rendering every raised exception as a
string.  The function is total: no exception escapes. -/
def fetch_webpage_text (net : Net) (url : PyStr) : PyStr :=
  match fetchBody net url with
  | .ok s => s
  | .error (.connectionError m) => str "Error fetching webpage " ++ url ++ str ": " ++ m
  | .error (.valueError m) => str "Error fetching webpage " ++ url ++ str ": " ++ m
  | .error (.otherError m) =>
      str "An unexpected error occurred while processing " ++ url ++ str ": " ++ m

/-- Split a character list on a separator character, keeping empty pieces;
`acc` holds the reversed current piece. -/
def splitOnAux (sep : Char) : List Char → List Char → List PyStr
  | [], acc => [acc.reverse]
  | c :: cs, acc =>
    if c == sep then acc.reverse :: splitOnAux sep cs []
    else splitOnAux sep cs (c :: acc)

/-- Hexadecimal digit test. -/
def isHexDigit (c : Char) : Bool :=
  c.isDigit || ('a' ≤ c && c ≤ 'f') || ('A' ≤ c && c ≤ 'F')

/-- Value of a hexadecimal digit. -/
def hexVal (c : Char) : Nat :=
  if c.isDigit then c.toNat - '0'.toNat
  else if 'a' ≤ c && c ≤ 'f' then c.toNat - 'a'.toNat + 10
  else c.toNat - 'A'.toNat + 10

/-- Modelled from the spec: percent- and plus-decoding of a query-parameter
value as the upstream HTTP server performs it (the server is an external
collaborator; the spec only fixes that the URL carries `q` and `count`
query parameters). -/
def pctDecode : PyStr → PyStr
  | [] => []
  | '%' :: a :: b :: rest =>
    if isHexDigit a && isHexDigit b then
      Char.ofNat (hexVal a * 16 + hexVal b) :: pctDecode rest
    else '%' :: pctDecode (a :: b :: rest)
  | '+' :: rest => ' ' :: pctDecode rest
  | c :: rest => c :: pctDecode rest

/-- Modelled from the spec: how the upstream server reads the `q` query
parameter from the request URL — the text after the first `?` is split on
`&`, each piece is split at its first `=` into name and value, and the
value of the first piece named `q` is percent- and plus-decoded. -/
def qParam (url : PyStr) : Option PyStr :=
  match (splitOnAux '&' ((url.dropWhile (fun c => c != '?')).drop 1) []).find?
      (fun p => p.takeWhile (fun c => c != '=') == str "q") with
  | none => none
  | some p => some (pctDecode ((p.dropWhile (fun c => c != '=')).drop 1))

/-- The URL-reserved characters (RFC 3986 gen-delims and sub-delims,
plus `%` and the space). -/
def URL_RESERVED : List Char :=
  [':', '/', '?', '#', '[', ']', '@', '!', '$', '&', '\'', '(', ')', '*',
   '+', ',', ';', '=', '%', ' ']

/-- Whether a JSON value is a Python dict. -/
def isObjB : Json → Bool
  | .obj _ => true
  | _ => false

/-- A response carrying the HTML document of the C6 test case. -/
def c6Resp : Response :=
  ⟨some (str "text/html"),
   str "<html><body><script>x</script><p>Hello   World</p></body></html>",
   Except.ok Json.null⟩

/-- A network that always answers with `c6Resp`. -/
def c6Net : Net := fun _ _ => .success c6Resp

/-- A response whose declared content type is upper-case and not HTML. -/
def c7Resp : Response :=
  ⟨some (str "APPLICATION/PDF"), str "some body text", Except.ok Json.null⟩

/-- A network that always answers with `c7Resp`. -/
def c7Net : Net := fun _ _ => .success c7Resp

/-- A response whose declared content type is lower-case and not HTML. -/
def c7aResp : Response :=
  ⟨some (str "application/json"), str "ignored", Except.ok Json.null⟩

/-- A network that always answers with `c7aResp`. -/
def c7aNet : Net := fun _ _ => .success c7aResp

/-- An HTML response whose extracted text reaches the truncation branch. -/
def c3Resp : Response :=
  ⟨some (str "text/html"), str "<p>Hi</p>", Except.ok Json.null⟩

/-- A network that always answers with `c3Resp`. -/
def c3Net : Net := fun _ _ => .success c3Resp

/-- A six-element results array (one more than the configured limit). -/
def c5rs : List Json :=
  [Json.obj [(str "title", Json.str (str "T1")), (str "url", Json.str (str "u1")),
     (str "description", Json.str (str "d1"))],
   Json.obj [(str "title", Json.str (str "T2")), (str "url", Json.str (str "u2")),
     (str "description", Json.str (str "d2"))],
   Json.obj [(str "title", Json.str (str "T3"))],
   Json.obj [(str "url", Json.str (str "u4"))],
   Json.obj [(str "description", Json.str (str "d5"))],
   Json.obj [(str "title", Json.str (str "T6")), (str "url", Json.str (str "u6")),
     (str "description", Json.str (str "d6"))]]

/-- The `web` object wrapping `c5rs`. -/
def c5wfields : List (PyStr × Json) := [(str "results", Json.arr c5rs)]

/-- The top-level JSON object wrapping `c5wfields`. -/
def c5dfields : List (PyStr × Json) := [(str "web", Json.obj c5wfields)]

/-- An upstream JSON body with six result objects. -/
def c5data : Json := Json.obj c5dfields

/-- A network that always answers with the `c5data` JSON body. -/
def c5Net : Net := fun _ _ => .success ⟨none, [], Except.ok c5data⟩

/-- An upstream JSON body whose `web` object has no `results` key. -/
def c8Resp : Response :=
  ⟨none, [], Except.ok (Json.obj [(str "web", Json.obj [])])⟩

/-- A network that always answers with `c8Resp`. -/
def c8Net : Net := fun _ _ => .success c8Resp

/-- A tagless HTML body one character longer than the fetch budget. -/
def bigBody : PyStr := List.replicate (MAX_FETCH_CHARS + 1) 'a'

/-- An HTML response carrying `bigBody`. -/
def bigResp : Response := ⟨some (str "text/html"), bigBody, Except.ok Json.null⟩

/-- A network that always answers with `bigResp`. -/
def bigNet : Net := fun _ _ => .success bigResp

/-! ### Helper lemmas -/

theorem startsWith_append_self (s t : PyStr) : startsWith s (s ++ t) = true := by
  induction s with
  | nil => rfl
  | cons c cs ih => simp [startsWith, ih]

theorem containsSub_of_startsWith {needle hay : PyStr}
    (h : startsWith needle hay = true) : containsSub needle hay = true := by
  cases hay with
  | nil =>
    cases needle with
    | nil => rfl
    | cons c cs => simp [startsWith] at h
  | cons c t => simp [containsSub, h]

theorem containsSub_cons_of {needle : PyStr} (c : Char) {t : PyStr}
    (h : containsSub needle t = true) : containsSub needle (c :: t) = true := by
  simp [containsSub, h]

theorem containsSub_append_self (pre s post : PyStr) :
    containsSub s (pre ++ (s ++ post)) = true := by
  induction pre with
  | nil => exact containsSub_of_startsWith (startsWith_append_self s post)
  | cons c cs ih => exact containsSub_cons_of c ih

theorem fetch_ok {net : Net} {url s : PyStr} (h : fetchBody net url = .ok s) :
    fetch_webpage_text net url = s := by
  rw [fetch_webpage_text, h]

theorem fetchBody_html_nonempty (net : Net) (url : PyStr) (resp : Response)
    (hnet : ∀ hs, net url hs = .success resp)
    (hct : containsSub (str "text/html") (pyLower (resp.contentType.getD [])) = true)
    (hne : normWs (get_text resp.body) ≠ []) :
    fetchBody net url =
      .ok ((normWs (get_text resp.body)).take MAX_FETCH_CHARS ++
        (if MAX_FETCH_CHARS < (normWs (get_text resp.body)).length
         then str "..." else [])) := by
  rw [fetchBody, make_request]
  rw [hnet]
  simp [hct, hne]

/-! ### Claim theorems -/

/-- C2: for every query, if the API credential is not configured (absent or
empty, as `if not BRAVE_API_KEY:` tests), `brave_search` returns exactly
the configured-key error string, and the result is the same under every
network oracle — no network request is made. -/
theorem c2_missing_key_soft_failure (cfg : Config) (net : Net) (query : PyStr)
    (hkey : strFalsy cfg.braveApiKey = true) :
    brave_search cfg net query =
      str "Error: Brave Search API key (BRAVE_API_KEY) is not configured." ∧
    ∀ net' : Net, brave_search cfg net' query = brave_search cfg net query := by
  refine ⟨?_, ?_⟩
  · simp [brave_search, hkey]
  · intro net'
    simp [brave_search, hkey]

theorem c2_missing_key_soft_failure_witness :
    brave_search ⟨none⟩ (fun _ _ => HttpOutcome.requestError (str "refused")) (str "anything") =
      str "Error: Brave Search API key (BRAVE_API_KEY) is not configured." :=
  (c2_missing_key_soft_failure ⟨none⟩
    (fun _ _ => HttpOutcome.requestError (str "refused")) (str "anything") (by decide)).1

/-- C6: on the HTML body
`<html><body><script>x</script><p>Hello   World</p></body></html>` with an
HTML content type, `fetch_webpage_text` returns exactly `"Hello World"`:
the script element is removed, the whitespace run is collapsed, and the
ends are trimmed. -/
theorem c6_hello_world_extraction :
    fetch_webpage_text c6Net (str "http://example.com") = str "Hello World" := by
  decide

/-- C8: for every upstream JSON object in which the nested `web.results`
array is absent (no `web` key, or a `web` object with no `results` key) or
empty, `brave_search` returns exactly `"No web search results found."`. -/
theorem c8_empty_results_soft_outcome (cfg : Config) (net : Net) (query : PyStr)
    (resp : Response) (dfields : List (PyStr × Json))
    (hkey : strFalsy cfg.braveApiKey = false)
    (hnet : ∀ hs, net (searchUrl query) hs = .success resp)
    (hjson : resp.json = .ok (Json.obj dfields))
    (habsent :
      dfields.lookup (str "web") = none ∨
      ∃ wfields, dfields.lookup (str "web") = some (Json.obj wfields) ∧
        (wfields.lookup (str "results") = none ∨
         wfields.lookup (str "results") = some (Json.arr []))) :
    brave_search cfg net query = str "No web search results found." := by
  have hbody : braveBody cfg net query = .ok (str "No web search results found.") := by
    rw [braveBody, make_request]
    rw [hnet]
    rcases habsent with hnone | ⟨wfields, hsome, hres⟩
    · simp [hjson, pyContains, hnone]
    · rcases hres with hrnone | hrempty
      · simp [hjson, pyContains, pyGetItem, hsome, hrnone]
      · simp [hjson, pyContains, pyGetItem, hsome, hrempty, pyTruthy]
  simp [brave_search, hkey, hbody]

theorem c8_empty_results_soft_outcome_witness :
    brave_search ⟨some (str "k")⟩ c8Net (str "q") =
      str "No web search results found." :=
  c8_empty_results_soft_outcome ⟨some (str "k")⟩ c8Net (str "q") c8Resp
    [(str "web", Json.obj [])] (by decide) (fun _ => rfl) rfl
    (Or.inr ⟨[], rfl, Or.inl rfl⟩)

/-- C7 counterexample: the response's content type `"APPLICATION/PDF"` is
not HTML under the case-insensitive check, yet the string returned by
`fetch_webpage_text` does not contain the literal content-type value (the
code interpolates the lowercased value). -/
theorem c7_literal_content_type_counterexample :
    containsSub (str "text/html") (pyLower (str "APPLICATION/PDF")) = false ∧
    containsSub (str "APPLICATION/PDF") (fetch_webpage_text c7Net (str "http://x")) = false := by
  decide

/-- C7 amended: for every response whose content-type header does not
contain `"text/html"` case-insensitively (an absent header reads as the
empty string), `fetch_webpage_text` returns exactly the error string that
embeds the lowercased content-type value — so the result contains the
lowercased value, and no extraction is performed (the result does not
depend on the body). -/
theorem c7_content_type_mismatch_amended (net : Net) (url : PyStr) (resp : Response)
    (hnet : ∀ hs, net url hs = .success resp)
    (hct : containsSub (str "text/html") (pyLower (resp.contentType.getD [])) = false) :
    fetch_webpage_text net url =
      str "Error: Content type is not HTML (" ++ pyLower (resp.contentType.getD []) ++
        str "). Cannot extract text." ∧
    containsSub (pyLower (resp.contentType.getD [])) (fetch_webpage_text net url) = true := by
  have hbody : fetchBody net url =
      .ok (str "Error: Content type is not HTML (" ++ pyLower (resp.contentType.getD []) ++
        str "). Cannot extract text.") := by
    rw [fetchBody, make_request]
    rw [hnet]
    simp [hct]
  have hres : fetch_webpage_text net url =
      str "Error: Content type is not HTML (" ++ pyLower (resp.contentType.getD []) ++
        str "). Cannot extract text." := by
    simp [fetch_webpage_text, hbody]
  refine ⟨hres, ?_⟩
  rw [hres, List.append_assoc]
  exact containsSub_append_self _ _ _

theorem c7_content_type_mismatch_amended_witness :
    fetch_webpage_text c7aNet (str "http://x") =
      str "Error: Content type is not HTML (" ++ pyLower (str "application/json") ++
        str "). Cannot extract text." :=
  (c7_content_type_mismatch_amended c7aNet (str "http://x") c7aResp
    (fun _ => rfl) (by decide)).1

/-- C3: for every response whose extracted, normalized text `t` is nonempty
(so the truncation line is reached), if `t` is strictly longer than
`MAX_FETCH_CHARS` then `fetch_webpage_text` returns exactly the first
`MAX_FETCH_CHARS` characters of `t` followed by the literal `"..."`; if
`t` is at most `MAX_FETCH_CHARS` long it is returned unchanged, with no
marker appended. -/
theorem c3_truncation_exact (net : Net) (url : PyStr) (resp : Response) (t : PyStr)
    (hnet : ∀ hs, net url hs = .success resp)
    (hct : containsSub (str "text/html") (pyLower (resp.contentType.getD [])) = true)
    (ht : t = normWs (get_text resp.body))
    (hne : t ≠ []) :
    (MAX_FETCH_CHARS < t.length →
      fetch_webpage_text net url = t.take MAX_FETCH_CHARS ++ str "...") ∧
    (t.length ≤ MAX_FETCH_CHARS → fetch_webpage_text net url = t) := by
  have hbody : fetchBody net url =
      .ok (t.take MAX_FETCH_CHARS ++
        (if MAX_FETCH_CHARS < t.length then str "..." else [])) := by
    rw [fetchBody, make_request]
    rw [hnet]
    simp [hct, ← ht, hne]
  refine ⟨fun hlong => ?_, fun hshort => ?_⟩
  · simp [fetch_webpage_text, hbody, hlong]
  · have : ¬ MAX_FETCH_CHARS < t.length := Nat.not_lt.mpr hshort
    simp [fetch_webpage_text, hbody, this, List.take_of_length_le hshort]

theorem c3_truncation_exact_witness :
    fetch_webpage_text c3Net (str "http://x") = str "Hi" := by
  have h := (c3_truncation_exact c3Net (str "http://x") c3Resp (str "Hi")
    (fun _ => rfl) (by decide) (by decide) (by decide)).2 (by decide)
  simpa using h

/-- C1: every failure arising during a tool invocation is caught and
rendered as a descriptive string — a transport failure, a non-2xx status,
a JSON-parse failure, and a shape failure (a non-iterable JSON body, which
raises inside the `try:` block) each produce the corresponding error
string for both `brave_search` and `fetch_webpage_text`; in the embedding
both tools are total functions into strings, so no exception reaches the
caller. -/
theorem c1_failures_rendered_as_strings (cfg : Config) (net : Net)
    (query url msg : PyStr) (code : Nat)
    (hkey : strFalsy cfg.braveApiKey = false) :
    ((∀ u hs, net u hs = .requestError msg) →
      brave_search cfg net query =
        str "Error performing search: " ++
          (str "Network error accessing " ++ searchUrl query ++ str ": " ++ msg) ∧
      fetch_webpage_text net url =
        str "Error fetching webpage " ++ url ++ str ": " ++
          (str "Network error accessing " ++ url ++ str ": " ++ msg)) ∧
    ((∀ u hs, net u hs = .statusError code) →
      brave_search cfg net query =
        str "Error performing search: " ++
          (str "HTTP error " ++ natToStr code ++ str " accessing " ++ searchUrl query) ∧
      fetch_webpage_text net url =
        str "Error fetching webpage " ++ url ++ str ": " ++
          (str "HTTP error " ++ natToStr code ++ str " accessing " ++ url)) ∧
    (∀ resp m, (∀ hs, net (searchUrl query) hs = .success resp) →
      resp.json = .error m →
      brave_search cfg net query = str "Error performing search: " ++ m) ∧
    (∀ resp n, (∀ hs, net (searchUrl query) hs = .success resp) →
      resp.json = .ok (Json.num n) →
      ∃ m, brave_search cfg net query = str "An unexpected error occurred: " ++ m) := by
  refine ⟨fun hfail => ⟨?_, ?_⟩, fun hfail => ⟨?_, ?_⟩, fun resp m hnet hjson => ?_,
    fun resp n hnet hjson => ?_⟩
  · simp [brave_search, braveBody, make_request, hkey, hfail]
  · simp [fetch_webpage_text, fetchBody, make_request, hfail]
  · simp [brave_search, braveBody, make_request, hkey, hfail]
  · simp [fetch_webpage_text, fetchBody, make_request, hfail]
  · have hbody : braveBody cfg net query = .error (.valueError m) := by
      rw [braveBody, make_request]
      rw [hnet]
      simp [hjson]
    simp [brave_search, hkey, hbody]
  · refine ⟨str "TypeError: argument is not iterable", ?_⟩
    have hbody : braveBody cfg net query =
        .error (.otherError (str "TypeError: argument is not iterable")) := by
      rw [braveBody, make_request]
      rw [hnet]
      simp [hjson, pyContains]
    simp [brave_search, hkey, hbody]

theorem c1_failures_rendered_as_strings_witness :
    brave_search ⟨some (str "k")⟩ (fun _ _ => HttpOutcome.requestError (str "boom")) (str "q") =
      str "Error performing search: " ++
        (str "Network error accessing " ++ searchUrl (str "q") ++ str ": " ++ str "boom") ∧
    fetch_webpage_text (fun _ _ => HttpOutcome.requestError (str "boom")) (str "u") =
      str "Error fetching webpage " ++ str "u" ++ str ": " ++
        (str "Network error accessing " ++ str "u" ++ str ": " ++ str "boom") :=
  (c1_failures_rendered_as_strings ⟨some (str "k")⟩
    (fun _ _ => HttpOutcome.requestError (str "boom")) (str "q") (str "u") (str "boom") 0
    (by decide)).1 (fun _ _ => rfl)

theorem formatResultsAux_length : ∀ (items : List Json) (n : Nat) (es : List PyStr),
    formatResultsAux n items = .ok es → es.length = items.length := by
  intro items
  induction items with
  | nil =>
    intro n es h
    simp [formatResultsAux] at h
    simp [← h]
  | cons r rs ih =>
    intro n es h
    rw [formatResultsAux] at h
    cases hr : formatResult n r with
    | error e => rw [hr] at h; cases h
    | ok entry =>
      rw [hr] at h
      cases hrs : formatResultsAux (n + 1) rs with
      | error e => rw [hrs] at h; cases h
      | ok entries =>
        rw [hrs] at h
        cases h
        simp [ih (n + 1) entries hrs]

theorem isObjB_eq_true {j : Json} (h : isObjB j = true) : ∃ fs, j = Json.obj fs := by
  cases j with
  | obj fs => exact ⟨fs, rfl⟩
  | null => exact absurd h Bool.false_ne_true
  | bool b => exact absurd h Bool.false_ne_true
  | num n => exact absurd h Bool.false_ne_true
  | str s => exact absurd h Bool.false_ne_true
  | arr items => exact absurd h Bool.false_ne_true

theorem formatResultsAux_allObj : ∀ (items : List Json) (n : Nat),
    items.all isObjB = true →
    ∃ es, formatResultsAux n items = .ok es ∧ es.length = items.length ∧
      ∀ i (h : i < es.length),
        ∃ rest, es.get ⟨i, h⟩ = natToStr (n + i + 1) ++ (str ". " ++ rest) := by
  intro items
  induction items with
  | nil =>
    intro n _
    exact ⟨[], rfl, rfl, fun i h => absurd h (Nat.not_lt_zero i)⟩
  | cons r rs ih =>
    intro n hall
    rw [List.all_cons, Bool.and_eq_true] at hall
    obtain ⟨fs, rfl⟩ := isObjB_eq_true hall.1
    obtain ⟨es, hes, hlen, hnum⟩ := ih (n + 1) hall.2
    refine ⟨(natToStr (n + 1) ++ (str ". " ++
        (pyStrOf ((fs.lookup (str "title")).getD (Json.str (str "No Title"))) ++
          str "\n   URL: " ++
          pyStrOf ((fs.lookup (str "url")).getD (Json.str (str "#"))) ++
          str "\n   Snippet: " ++
          pyStrOf ((fs.lookup (str "description")).getD (Json.str (str "No Snippet"))) ++
          str "\n"))) :: es, ?_, ?_, ?_⟩
    · rw [formatResultsAux]
      simp [formatResult, pyGet, hes, List.append_assoc]
    · simp [hlen]
    · intro i h
      match i with
      | 0 => exact ⟨_, rfl⟩
      | Nat.succ j =>
        have hj : j < es.length := Nat.lt_of_succ_lt_succ h
        obtain ⟨rest, hrest⟩ := hnum j hj
        refine ⟨rest, ?_⟩
        have harith : n + 1 + j + 1 = n + (j + 1) + 1 := by omega
        simpa [harith] using hrest

/-- C5: for every configured key and every upstream JSON response whose
`web.results` array holds more than `MAX_SEARCH_RESULTS` result objects,
`brave_search` formats exactly the first `MAX_SEARCH_RESULTS` results —
the returned string is the header joined with exactly `MAX_SEARCH_RESULTS`
entries, numbered `1.` through `5.` in order, and the items beyond the
limit do not contribute (only `results.take MAX_SEARCH_RESULTS` is
formatted). -/
theorem c5_results_truncated_to_limit (cfg : Config) (net : Net) (query : PyStr)
    (resp : Response) (dfields wfields : List (PyStr × Json)) (rs : List Json)
    (hkey : strFalsy cfg.braveApiKey = false)
    (hnet : ∀ hs, net (searchUrl query) hs = .success resp)
    (hjson : resp.json = .ok (Json.obj dfields))
    (hweb : dfields.lookup (str "web") = some (Json.obj wfields))
    (hres : wfields.lookup (str "results") = some (Json.arr rs))
    (hlen : MAX_SEARCH_RESULTS < rs.length)
    (hobj : rs.all isObjB = true) :
    ∃ es, formatResultsAux 0 (rs.take MAX_SEARCH_RESULTS) = .ok es ∧
      brave_search cfg net query = pyJoin (str "\n") (str "Search Results:" :: es) ∧
      es.length = MAX_SEARCH_RESULTS ∧
      ∀ i (h : i < es.length),
        ∃ rest, es.get ⟨i, h⟩ = natToStr (i + 1) ++ (str ". " ++ rest) := by
  have hobj' : (rs.take MAX_SEARCH_RESULTS).all isObjB = true := by
    rw [List.all_eq_true] at hobj ⊢
    exact fun x hx => hobj x (List.mem_of_mem_take hx)
  obtain ⟨es, hes, helen, hnum⟩ := formatResultsAux_allObj (rs.take MAX_SEARCH_RESULTS) 0 hobj'
  have hrs_ne : rs.isEmpty = false := by
    cases rs with
    | nil => simp at hlen
    | cons a l => rfl
  have hbody : braveBody cfg net query =
      .ok (pyJoin (str "\n") (str "Search Results:" :: es)) := by
    rw [braveBody, make_request]
    rw [hnet]
    simp [hjson, pyContains, pyGetItem, hweb, hres, pyTruthy, hrs_ne, sliceEnum, hes]
  refine ⟨es, hes, ?_, ?_, ?_⟩
  · simp [brave_search, hkey, hbody]
  · rw [helen, List.length_take]
    omega
  · intro i h
    obtain ⟨rest, hrest⟩ := hnum i h
    exact ⟨rest, by simpa [Nat.zero_add] using hrest⟩

theorem c5_results_truncated_to_limit_witness :
    ∃ es, formatResultsAux 0 (c5rs.take MAX_SEARCH_RESULTS) = .ok es ∧
      brave_search ⟨some (str "k")⟩ c5Net (str "q") =
        pyJoin (str "\n") (str "Search Results:" :: es) ∧
      es.length = MAX_SEARCH_RESULTS ∧
      ∀ i (h : i < es.length),
        ∃ rest, es.get ⟨i, h⟩ = natToStr (i + 1) ++ (str ". " ++ rest) :=
  c5_results_truncated_to_limit ⟨some (str "k")⟩ c5Net (str "q")
    ⟨none, [], Except.ok c5data⟩ c5dfields c5wfields c5rs (by decide) (fun _ => rfl) rfl
    rfl rfl (by decide) (by decide)

theorem splitAux_good : ∀ (l acc : List Char), (∀ c ∈ acc, isPySpace c = false) →
    ∀ w ∈ splitAux l acc, w ≠ [] ∧ ∀ c ∈ w, isPySpace c = false := by
  intro l
  induction l with
  | nil =>
    intro acc hacc w hw
    rw [splitAux] at hw
    by_cases ha : acc.isEmpty
    · rw [if_pos ha] at hw
      cases hw
    · rw [if_neg ha] at hw
      rw [List.mem_singleton] at hw
      subst hw
      refine ⟨?_, ?_⟩
      · intro hnil
        rw [List.reverse_eq_nil_iff] at hnil
        exact ha (by simp [hnil])
      · intro c hc
        exact hacc c (List.mem_reverse.mp hc)
  | cons c cs ih =>
    intro acc hacc w hw
    rw [splitAux] at hw
    by_cases hc : isPySpace c = true
    · rw [if_pos hc] at hw
      by_cases ha : acc.isEmpty
      · rw [if_pos ha] at hw
        exact ih [] (by simp) w hw
      · rw [if_neg ha] at hw
        rcases List.mem_cons.mp hw with hw | hw
        · subst hw
          refine ⟨?_, ?_⟩
          · intro hnil
            rw [List.reverse_eq_nil_iff] at hnil
            exact ha (by simp [hnil])
          · intro c' hc'
            exact hacc c' (List.mem_reverse.mp hc')
        · exact ih [] (by simp) w hw
    · rw [if_neg hc] at hw
      refine ih (c :: acc) ?_ w hw
      intro c' hc'
      rcases List.mem_cons.mp hc' with rfl | hc'
      · exact Bool.not_eq_true _ ▸ Bool.of_not_eq_true hc
      · exact hacc c' hc'

theorem splitAux_word_append (w : List Char) (hw : ∀ c ∈ w, isPySpace c = false) :
    ∀ (l acc : List Char), splitAux (w ++ l) acc = splitAux l (w.reverse ++ acc) := by
  induction w with
  | nil => intro l acc; rfl
  | cons c cs ih =>
    intro l acc
    have hc : isPySpace c = false := hw c (List.mem_cons_self c cs)
    rw [List.cons_append, splitAux, if_neg (by simp [hc])]
    rw [ih (fun c' hc' => hw c' (List.mem_cons_of_mem c hc')) l (c :: acc)]
    simp [List.append_assoc]

theorem splitAux_join : ∀ ws : List PyStr,
    (∀ w ∈ ws, w ≠ [] ∧ ∀ c ∈ w, isPySpace c = false) →
    splitAux (pyJoin (str " ") ws) [] = ws := by
  intro ws
  induction ws with
  | nil => intro _; rfl
  | cons w ws ih =>
    intro hws
    have hw := hws w (List.mem_cons_self w ws)
    have hwrev : (w.reverse).isEmpty = false := by
      cases hrev : w.reverse with
      | nil => exact absurd (List.reverse_eq_nil_iff.mp hrev) hw.1
      | cons a l => rfl
    cases ws with
    | nil =>
      have h1 : pyJoin (str " ") [w] = w ++ [] := by simp [pyJoin]
      rw [h1, splitAux_word_append w hw.2 [] [], splitAux]
      rw [List.append_nil, if_neg (by simp [hwrev])]
      simp
    | cons w' ws' =>
      have h1 : pyJoin (str " ") (w :: w' :: ws') =
          w ++ (' ' :: pyJoin (str " ") (w' :: ws')) := by
        simp [pyJoin, str, List.append_assoc]
      rw [h1, splitAux_word_append w hw.2 _ [], List.append_nil, splitAux]
      rw [if_pos (by decide), if_neg (by simp [hwrev])]
      rw [ih (fun u hu => hws u (List.mem_cons_of_mem w hu))]
      simp

/-- C9: the whitespace normalization `' '.join(text.split())` used by
`fetch_webpage_text` is idempotent — applying it to an already-normalized
string returns the string unchanged. -/
theorem c9_normalization_idempotent (s : PyStr) : normWs (normWs s) = normWs s := by
  have hgood : ∀ w ∈ pySplit s, w ≠ [] ∧ ∀ c ∈ w, isPySpace c = false :=
    fun w hw => splitAux_good s [] (by simp) w hw
  have hsplit : pySplit (normWs s) = pySplit s := by
    rw [normWs, pySplit]
    exact splitAux_join (pySplit s) hgood
  rw [normWs, hsplit]
  rfl

theorem tokAux_replicate_a : ∀ (n : Nat) (acc : List Char),
    tokAux (List.replicate (n + 1) 'a') TokMode.text acc =
      [HtmlToken.txt (acc.reverse ++ List.replicate (n + 1) 'a')] := by
  intro n
  induction n with
  | zero =>
    intro acc
    rw [List.replicate_succ, List.replicate_zero, tokAux, if_neg (by decide), tokAux]
    rw [if_neg (by simp)]
    simp
  | succ m ih =>
    intro acc
    rw [List.replicate_succ, tokAux, if_neg (by decide), ih ('a' :: acc)]
    simp [List.append_assoc, List.replicate_succ]

theorem pySplit_nospace (w : PyStr) (hne : w ≠ [])
    (hw : ∀ c ∈ w, isPySpace c = false) : pySplit w = [w] := by
  have h := splitAux_word_append w hw [] []
  rw [List.append_nil, List.append_nil] at h
  rw [pySplit, h, splitAux]
  rw [if_neg (by simpa using fun hrev => hne (List.reverse_eq_nil_iff.mp hrev))]
  simp

theorem normWs_nospace (w : PyStr) (hne : w ≠ [])
    (hw : ∀ c ∈ w, isPySpace c = false) : normWs w = w := by
  rw [normWs, pySplit_nospace w hne hw]
  rfl

theorem bigBody_eval : normWs (get_text bigBody) = bigBody := by
  have hb : bigBody = 'a' :: List.replicate MAX_FETCH_CHARS 'a' := by
    rw [bigBody, List.replicate_succ]
  have hne : bigBody ≠ [] := by rw [hb]; exact List.cons_ne_nil _ _
  have hch : ∀ c ∈ bigBody, isPySpace c = false := by
    intro c hc
    rw [bigBody, List.mem_replicate] at hc
    rw [hc.2]
    decide
  have htok : tokenize bigBody = [HtmlToken.txt bigBody] := by
    rw [tokenize, bigBody, tokAux_replicate_a MAX_FETCH_CHARS []]
    simp [bigBody]
  have hstrip : pyStrip bigBody = bigBody := by
    have hdrop : List.dropWhile isPySpace bigBody = bigBody := by
      rw [hb, List.dropWhile_cons, if_neg (by decide)]
    have hrev : bigBody.reverse = bigBody := by
      rw [bigBody]
      exact List.reverse_replicate _ _
    rw [pyStrip, hdrop, hrev, hdrop, hrev]
  have hge : get_text bigBody = bigBody := by
    rw [get_text, htok]
    show pyJoin (str " ")
      (([bigBody].map pyStrip).filter (fun w => !w.isEmpty)) = bigBody
    rw [List.map_singleton, hstrip]
    have hbe : bigBody.isEmpty = false := by rw [hb]; rfl
    simp [List.filter, hbe]
    rfl
  rw [hge]
  exact normWs_nospace bigBody hne hch

/-- C4 counterexample: a successful HTML response whose extracted text is
one character longer than `MAX_FETCH_CHARS` makes `fetch_webpage_text`
return a string strictly longer than `MAX_FETCH_CHARS` (the truncated text
plus the three-character `"..."` marker), refuting the claim that the
returned string never exceeds the configured character limit. -/
theorem c4_fetch_limit_counterexample :
    MAX_FETCH_CHARS < (fetch_webpage_text bigNet (str "http://big")).length := by
  have hlenb : bigBody.length = MAX_FETCH_CHARS + 1 := by
    rw [bigBody, List.length_replicate]
  have heval : normWs (get_text bigResp.body) = bigBody := bigBody_eval
  have hne : normWs (get_text bigResp.body) ≠ [] := by
    rw [heval, bigBody, List.replicate_succ]
    exact List.cons_ne_nil _ _
  have hbody := fetchBody_html_nonempty bigNet (str "http://big") bigResp
    (fun _ => rfl) (by decide) hne
  rw [heval, if_pos (by rw [hlenb]; omega)] at hbody
  rw [fetch_ok hbody]
  rw [List.length_append, List.length_take, hlenb]
  have h3 : (str "...").length = 3 := by decide
  rw [h3]
  omega

/-- C4 amended: the size limits hold in the amended form — on the
successful-HTML path the string returned by `fetch_webpage_text` never
exceeds `MAX_FETCH_CHARS` plus the 3-character truncation marker, and the
entry list formatted by `brave_search` never holds more than
`MAX_SEARCH_RESULTS` entries. -/
theorem c4_output_limits_amended :
    (∀ (net : Net) (url : PyStr) (resp : Response),
      (∀ hs, net url hs = .success resp) →
      containsSub (str "text/html") (pyLower (resp.contentType.getD [])) = true →
      (fetch_webpage_text net url).length ≤ MAX_FETCH_CHARS + 3) ∧
    (∀ (results : Json) (items : List Json) (n : Nat) (es : List PyStr),
      sliceEnum results MAX_SEARCH_RESULTS = .ok items →
      formatResultsAux n items = .ok es →
      es.length ≤ MAX_SEARCH_RESULTS) := by
  constructor
  · intro net url resp hnet hct
    by_cases hempty : (normWs (get_text resp.body)).isEmpty
    · have hbody : fetchBody net url =
          .ok (str "Could not extract any text content from the page.") := by
        rw [fetchBody, make_request]
        rw [hnet]
        simp [hct, hempty]
      rw [fetch_ok hbody]
      decide
    · have hbody : fetchBody net url =
          .ok ((normWs (get_text resp.body)).take MAX_FETCH_CHARS ++
            (if MAX_FETCH_CHARS < (normWs (get_text resp.body)).length
             then str "..." else [])) := by
        rw [fetchBody, make_request]
        rw [hnet]
        simp [hct, hempty]
      rw [fetch_ok hbody]
      rw [List.length_append]
      have h1 : ((normWs (get_text resp.body)).take MAX_FETCH_CHARS).length ≤
          MAX_FETCH_CHARS := by
        rw [List.length_take]
        omega
      have h2 : (if MAX_FETCH_CHARS < (normWs (get_text resp.body)).length
          then str "..." else ([] : PyStr)).length ≤ 3 := by
        split
        · decide
        · decide
      omega
  · intro results items n es hslice hfmt
    have hlen := formatResultsAux_length items n es hfmt
    rw [hlen]
    cases results with
    | arr l =>
      have : items = l.take MAX_SEARCH_RESULTS := by
        simpa [sliceEnum] using hslice.symm
      rw [this, List.length_take]
      omega
    | str s =>
      have : items = (s.take MAX_SEARCH_RESULTS).map (fun c => Json.str [c]) := by
        simpa [sliceEnum] using hslice.symm
      rw [this, List.length_map, List.length_take]
      omega
    | null => exact absurd hslice (by simp [sliceEnum])
    | bool b => exact absurd hslice (by simp [sliceEnum])
    | num m => exact absurd hslice (by simp [sliceEnum])
    | obj fs => exact absurd hslice (by simp [sliceEnum])

theorem c4_output_limits_amended_witness :
    (fetch_webpage_text c3Net (str "http://x")).length ≤ MAX_FETCH_CHARS + 3 :=
  c4_output_limits_amended.1 c3Net (str "http://x") c3Resp (fun _ => rfl) (by decide)

theorem splitOnAux_word_append (sep : Char) (w : List Char)
    (hw : ∀ c ∈ w, (c == sep) = false) :
    ∀ (l acc : List Char),
      splitOnAux sep (w ++ l) acc = splitOnAux sep l (w.reverse ++ acc) := by
  induction w with
  | nil => intro l acc; rfl
  | cons c cs ih =>
    intro l acc
    have hc : (c == sep) = false := hw c (List.mem_cons_self c cs)
    rw [List.cons_append, splitOnAux, if_neg (by simp [hc])]
    rw [ih (fun c' hc' => hw c' (List.mem_cons_of_mem c hc')) l (c :: acc)]
    simp [List.append_assoc]

theorem pctDecode_cons_ne (c : Char) (rest : PyStr) (h1 : c ≠ '%') (h2 : c ≠ '+') :
    pctDecode (c :: rest) = c :: pctDecode rest := by
  rw [pctDecode.eq_def]
  split <;> simp_all

theorem pctDecode_id : ∀ s : PyStr, (∀ c ∈ s, c ≠ '%' ∧ c ≠ '+') →
    pctDecode s = s := by
  intro s
  induction s with
  | nil => intro _; rfl
  | cons c rest ih =>
    intro h
    have hc := h c (List.mem_cons_self c rest)
    rw [pctDecode_cons_ne c rest hc.1 hc.2,
      ih (fun c' hc' => h c' (List.mem_cons_of_mem c hc'))]

theorem qParam_searchUrl (q : PyStr) (hq : ∀ c ∈ q, c ∉ URL_RESERVED) :
    qParam (searchUrl q) = some q := by
  have hamp : ∀ c ∈ q, (c == '&') = false := by
    intro c hc
    rw [beq_eq_false_iff_ne]
    intro he
    exact hq c hc (he ▸ (by decide : ('&' : Char) ∈ URL_RESERVED))
  have hpct : ∀ c ∈ q, c ≠ '%' ∧ c ≠ '+' := by
    intro c hc
    exact ⟨fun he => hq c hc (he ▸ (by decide : ('%' : Char) ∈ URL_RESERVED)),
           fun he => hq c hc (he ▸ (by decide : ('+' : Char) ∈ URL_RESERVED))⟩
  have hqe : str "q=" ++ q = 'q' :: '=' :: q := by
    rw [show str "q=" = ['q', '='] from by decide]
    rfl
  have hsu : searchUrl q =
      str "https://api.search.brave.com/res/v1/web/search?q=" ++
        (q ++ ('&' :: str "count=5")) := by
    rw [searchUrl]
    rw [show natToStr MAX_SEARCH_RESULTS = ['5'] from by decide]
    have hc : str "&count=" ++ ['5'] = '&' :: str "count=5" := by decide
    simp only [List.append_assoc]
    rw [hc]
  have hA : (searchUrl q).dropWhile (fun c => c != '?') =
      str "?q=" ++ (q ++ ('&' :: str "count=5")) := by
    rw [hsu, List.dropWhile_append]
    rw [show (str "https://api.search.brave.com/res/v1/web/search?q=").dropWhile
      (fun c => c != '?') = str "?q=" from by decide]
    rw [if_neg (by decide)]
  have hB : (str "?q=" ++ (q ++ ('&' :: str "count=5"))).drop 1 =
      str "q=" ++ (q ++ ('&' :: str "count=5")) := by
    rw [show str "?q=" = '?' :: str "q=" from by decide]
    rfl
  have hC : splitOnAux '&' (str "q=" ++ (q ++ ('&' :: str "count=5"))) [] =
      (str "q=" ++ q) :: [str "count=5"] := by
    have hw : ∀ c ∈ str "q=" ++ q, (c == '&') = false := by
      intro c hc
      rcases List.mem_append.mp hc with h | h
      · have h2 : c = 'q' ∨ c = '=' := by
          rw [show str "q=" = ['q', '='] from by decide] at h
          simpa using h
        rcases h2 with rfl | rfl <;> decide
      · exact hamp c h
    rw [← List.append_assoc]
    rw [splitOnAux_word_append '&' (str "q=" ++ q) hw ('&' :: str "count=5") []]
    rw [List.append_nil, splitOnAux, if_pos (by decide)]
    rw [List.reverse_reverse]
    rw [show splitOnAux '&' (str "count=5") [] = [str "count=5"] from by decide]
  have htw : ((str "q=" ++ q).takeWhile (fun c => c != '=')) = str "q" := by
    rw [hqe, List.takeWhile_cons, if_pos (by decide), List.takeWhile_cons,
      if_neg (by decide)]
    decide
  have hdw : ((str "q=" ++ q).dropWhile (fun c => c != '=')) = '=' :: q := by
    rw [hqe, List.dropWhile_cons, if_pos (by decide), List.dropWhile_cons,
      if_neg (by decide)]
  rw [qParam, hA, hB, hC]
  rw [List.find?_cons_of_pos _ (by rw [htw]; decide)]
  show some (pctDecode (((str "q=" ++ q).dropWhile (fun c => c != '=')).drop 1)) = some q
  rw [hdw]
  show some (pctDecode q) = some q
  rw [pctDecode_id q hpct]

/-- C10: `brave_search` builds the request URL by direct interpolation of
the raw query with no percent-encoding; under standard query-string
parsing the upstream `q` parameter therefore equals the given query
whenever the query has no URL-reserved characters, while for some queries
containing reserved characters (e.g. `"a&b"`) the transmitted parameter
differs from the query. -/
theorem c10_raw_query_interpolation :
    (∀ query : PyStr, searchUrl query =
      str "https://api.search.brave.com/res/v1/web/search?q=" ++ query ++
        str "&count=" ++ natToStr MAX_SEARCH_RESULTS) ∧
    (∀ query : PyStr, (∀ c ∈ query, c ∉ URL_RESERVED) →
      qParam (searchUrl query) = some query) ∧
    qParam (searchUrl (str "a&b")) ≠ some (str "a&b") := by
  refine ⟨fun query => rfl, fun query hq => qParam_searchUrl query hq, ?_⟩
  decide

theorem c10_raw_query_interpolation_witness :
    qParam (searchUrl (str "hello")) = some (str "hello") :=
  c10_raw_query_interpolation.2.1 (str "hello") (by decide)

end WebSearchMCP
